import Mathlib

/-
  Shallow embedding of src/src/display.rs (a foreign-function binding over the
  operating system's display, window-enumeration and cursor interface).

  The native layer is not part of the repository; it is modelled as an explicit
  environment `NativeEnv` of return values, so that every public operation of
  the binding becomes a pure Lean function of the environment and its
  arguments.  Each operation additionally returns the list of native calls it
  performs, so that call-count and protocol properties can be stated.

  Reference counting of the native display-mode record (the `foreign_type!`
  block: `fn drop = CGDisplayModeRelease; fn clone = CFRetain`) is modelled as
  an explicit state machine `RCState`.
-/

set_option autoImplicit false

namespace CoreGraphics

/-- Raw native pointer, modelled as a natural number; `0` is the null pointer. -/
abbrev Ptr := Nat

/-- Display identifier (`pub type CGDirectDisplayID = libc::uint32_t`). -/
abbrev CGDirectDisplayID := Nat

/-- Window identifier (`pub type CGWindowID = libc::uint32_t`). -/
abbrev CGWindowID := Nat

/-- `pub const kCGNullWindowID: CGWindowID = 0` from the source. -/
def kCGNullWindowID : CGWindowID := 0

/-- Window-list option bit flags (`pub type CGWindowListOption = libc::uint32_t`). -/
abbrev CGWindowListOption := Nat

/-- Window-image option bit flags (`pub type CGWindowImageOption = libc::uint32_t`). -/
abbrev CGWindowImageOption := Nat

/-- Modelled from the spec: the error value type re-exported from the `base`
module (absent from the sources): a numeric code from the operating system's
error domain; zero denotes success. -/
abbrev CGError := Int

/-- A C `double`, carried opaquely by its 64 bit pattern: the binding never
performs arithmetic on these values, it only passes them through. -/
structure CGFloat where
  bits : Nat
deriving DecidableEq, Repr

/-- A point (two `CGFloat` coordinates), passed through unmodified. -/
structure CGPoint where
  x : CGFloat
  y : CGFloat
deriving DecidableEq, Repr

/-- A size (two `CGFloat` extents), passed through unmodified. -/
structure CGSize where
  width : CGFloat
  height : CGFloat
deriving DecidableEq, Repr

/-- A rectangle (origin and size), passed through unmodified. -/
structure CGRect where
  origin : CGPoint
  size : CGSize
deriving DecidableEq, Repr

/-- `pub struct CGDisplay { pub id: CGDirectDisplayID }` with
`#[derive(Copy, Clone, Debug)]`. -/
structure CGDisplay where
  id : CGDirectDisplayID
deriving DecidableEq, Repr

/-- The display-mode wrapper produced by the `foreign_type!` block: it holds
exactly the raw native pointer it was adopted from. -/
structure CGDisplayMode where
  ptr : Ptr
deriving DecidableEq, Repr

/-- An owned image handle (wrapper over `::sys::CGImageRef`). -/
structure CGImage where
  ptr : Ptr
deriving DecidableEq, Repr

/-- An owned core-foundation array handle (wrapper over `CFArrayRef`). -/
structure CFArray where
  ptr : Ptr
deriving DecidableEq, Repr

/-- `ForeignType::from_ptr`: adopt a raw pointer into a wrapper, without any
check and without touching the reference count (the create rule: the caller
transfers the one reference it holds). -/
def CGDisplayMode.from_ptr (p : Ptr) : CGDisplayMode := ⟨p⟩

/-- `ForeignType::from_ptr` for image handles. -/
def CGImage.from_ptr (p : Ptr) : CGImage := ⟨p⟩

/-- `TCFType::wrap_under_create_rule`: take ownership of a returned reference. -/
def CFArray.wrap_under_create_rule (p : Ptr) : CFArray := ⟨p⟩

/-- `TCFType::as_concrete_TypeRef`: expose the wrapped raw pointer. -/
def CFArray.as_concrete_TypeRef (a : CFArray) : Ptr := a.ptr

/-- The Rust cast `connected as boolean_t` from `bool` to `u32`. -/
def boolean_t.ofBool (b : Bool) : Nat := if b then 1 else 0

/-- The fields of the native display-mode record that the binding reads
(`CGDisplayModeGet{Width, Height, PixelWidth, PixelHeight, RefreshRate}`). -/
structure DisplayModeRecord where
  width : Nat
  height : Nat
  pixelWidth : Nat
  pixelHeight : Nat
  refreshRate : CGFloat
deriving DecidableEq, Repr

/-- One native (foreign) call made by the binding, with its arguments.  For the
enumeration function, `bufLen` is `none` when the buffer pointer is null and
`some n` when a buffer of length `n` is passed. -/
inductive NativeCall where
  | copyDisplayMode (display : CGDirectDisplayID)
  | createImage (display : CGDirectDisplayID)
  | windowListCreateImage (screenBounds : CGRect) (listOptions : CGWindowListOption)
      (windowId : CGWindowID) (imageOptions : CGWindowImageOption)
  | windowListCreateImageFromArray (screenBounds : CGRect) (windowArray : Ptr)
      (imageOptions : CGWindowImageOption)
  | windowListCopyWindowInfo (listOptions : CGWindowListOption) (relativeToWindow : CGWindowID)
  | displayIsActive (display : CGDirectDisplayID)
  | displayIsAlwaysInMirrorSet (display : CGDirectDisplayID)
  | displayIsAsleep (display : CGDirectDisplayID)
  | displayIsBuiltin (display : CGDirectDisplayID)
  | displayIsInHWMirrorSet (display : CGDirectDisplayID)
  | displayIsInMirrorSet (display : CGDirectDisplayID)
  | displayIsMain (display : CGDirectDisplayID)
  | displayIsOnline (display : CGDirectDisplayID)
  | displayUsesOpenGLAcceleration (display : CGDirectDisplayID)
  | displayIsStereo (display : CGDirectDisplayID)
  | getActiveDisplayList (maxDisplays : Nat) (bufLen : Option Nat)
  | displayHideCursor (display : CGDirectDisplayID)
  | displayShowCursor (display : CGDirectDisplayID)
  | displayMoveCursorToPoint (display : CGDirectDisplayID) (point : CGPoint)
  | warpMouseCursorPosition (point : CGPoint)
  | associateMouseAndMouseCursorPosition (connected : Nat)
  | modeGetWidth (mode : Ptr)
  | modeGetHeight (mode : Ptr)
  | modeGetPixelWidth (mode : Ptr)
  | modeGetPixelHeight (mode : Ptr)
  | modeGetRefreshRate (mode : Ptr)
deriving DecidableEq, Repr

/-- The native layer, as an environment of return values: one field per
external function the binding calls.  `activeCount` and `activeIds` describe
the state the enumeration function reports, `probeErr` and `fillErr` the codes
it returns for the size-probe call and the fill call. -/
structure NativeEnv where
  copyDisplayModeRet : CGDirectDisplayID → Ptr
  createImageRet : CGDirectDisplayID → Ptr
  windowListCreateImageRet : CGRect → CGWindowListOption → CGWindowID → CGWindowImageOption → Ptr
  windowListCreateImageFromArrayRet : CGRect → Ptr → CGWindowImageOption → Ptr
  windowListCopyWindowInfoRet : CGWindowListOption → CGWindowID → Ptr
  isActiveRet : CGDirectDisplayID → Nat
  isAlwaysInMirrorSetRet : CGDirectDisplayID → Nat
  isAsleepRet : CGDirectDisplayID → Nat
  isBuiltinRet : CGDirectDisplayID → Nat
  isInHWMirrorSetRet : CGDirectDisplayID → Nat
  isInMirrorSetRet : CGDirectDisplayID → Nat
  isMainRet : CGDirectDisplayID → Nat
  isOnlineRet : CGDirectDisplayID → Nat
  usesOpenGLAccelerationRet : CGDirectDisplayID → Nat
  isStereoRet : CGDirectDisplayID → Nat
  activeCount : Nat
  activeIds : List CGDirectDisplayID
  probeErr : CGError
  fillErr : CGError
  hideCursorRet : CGDirectDisplayID → CGError
  showCursorRet : CGDirectDisplayID → CGError
  moveCursorRet : CGDirectDisplayID → CGPoint → CGError
  warpRet : CGPoint → CGError
  associateRet : Nat → CGError
  modeHeap : Ptr → DisplayModeRecord

/-- Modelled from the spec: the native enumeration function
`CGGetActiveDisplayList(max_displays, active_displays, display_count)`.  Called
with a null buffer it reports the active-display count; called with a buffer it
writes the first `min max_displays count` identifiers into the buffer's prefix.
Returns the error code, the buffer contents after the call, and the reported
count. -/
def NativeEnv.getActiveDisplayList (env : NativeEnv) (max_displays : Nat)
    (buf : Option (List CGDirectDisplayID)) :
    CGError × Option (List CGDirectDisplayID) × Nat :=
  match buf with
  | none => (env.probeErr, none, env.activeCount)
  | some b =>
      let k := min max_displays env.activeIds.length
      (env.fillErr, some (env.activeIds.take k ++ b.drop k), env.activeCount)

/-- `CGDisplay::new(id)`. -/
def CGDisplay.new (i : CGDirectDisplayID) : CGDisplay := ⟨i⟩

/-- `CGDisplay::display_mode`: null becomes `None`, otherwise the returned
pointer is adopted. -/
def CGDisplay.display_mode (env : NativeEnv) (d : CGDisplay) :
    Option CGDisplayMode × List NativeCall :=
  let mode_ref := env.copyDisplayModeRet d.id
  (if mode_ref ≠ 0 then some (CGDisplayMode.from_ptr mode_ref) else none,
    [NativeCall.copyDisplayMode d.id])

/-- `CGDisplay::image`. -/
def CGDisplay.image (env : NativeEnv) (d : CGDisplay) :
    Option CGImage × List NativeCall :=
  let image_ref := env.createImageRet d.id
  (if image_ref ≠ 0 then some (CGImage.from_ptr image_ref) else none,
    [NativeCall.createImage d.id])

/-- `CGDisplay::screenshot`. -/
def CGDisplay.screenshot (env : NativeEnv) (bounds : CGRect)
    (list_option : CGWindowListOption) (window_id : CGWindowID)
    (image_option : CGWindowImageOption) : Option CGImage × List NativeCall :=
  let image_ref := env.windowListCreateImageRet bounds list_option window_id image_option
  (if image_ref ≠ 0 then some (CGImage.from_ptr image_ref) else none,
    [NativeCall.windowListCreateImage bounds list_option window_id image_option])

/-- `CGDisplay::screenshot_from_windows`. -/
def CGDisplay.screenshot_from_windows (env : NativeEnv) (bounds : CGRect)
    (windows : CFArray) (image_option : CGWindowImageOption) :
    Option CGImage × List NativeCall :=
  let image_ref :=
    env.windowListCreateImageFromArrayRet bounds windows.as_concrete_TypeRef image_option
  (if image_ref ≠ 0 then some (CGImage.from_ptr image_ref) else none,
    [NativeCall.windowListCreateImageFromArray bounds windows.as_concrete_TypeRef image_option])

/-- `CGDisplay::window_list_info`: an absent relative window defaults to
`kCGNullWindowID`; a non-null result is wrapped under the create rule. -/
def CGDisplay.window_list_info (env : NativeEnv) (option : CGWindowListOption)
    (relative_to_window : Option CGWindowID) : Option CFArray × List NativeCall :=
  let rtw := relative_to_window.getD kCGNullWindowID
  let array_ref := env.windowListCopyWindowInfoRet option rtw
  (if array_ref ≠ 0 then some (CFArray.wrap_under_create_rule array_ref) else none,
    [NativeCall.windowListCopyWindowInfo option rtw])

/-- `CGDisplay::is_active`: `CGDisplayIsActive(self.id) != 0`. -/
def CGDisplay.is_active (env : NativeEnv) (d : CGDisplay) : Bool × List NativeCall :=
  (env.isActiveRet d.id != 0, [NativeCall.displayIsActive d.id])

/-- `CGDisplay::is_always_in_mirror_set`. -/
def CGDisplay.is_always_in_mirror_set (env : NativeEnv) (d : CGDisplay) :
    Bool × List NativeCall :=
  (env.isAlwaysInMirrorSetRet d.id != 0, [NativeCall.displayIsAlwaysInMirrorSet d.id])

/-- `CGDisplay::is_asleep`. -/
def CGDisplay.is_asleep (env : NativeEnv) (d : CGDisplay) : Bool × List NativeCall :=
  (env.isAsleepRet d.id != 0, [NativeCall.displayIsAsleep d.id])

/-- `CGDisplay::is_builtin`. -/
def CGDisplay.is_builtin (env : NativeEnv) (d : CGDisplay) : Bool × List NativeCall :=
  (env.isBuiltinRet d.id != 0, [NativeCall.displayIsBuiltin d.id])

/-- `CGDisplay::is_in_hw_mirror_set`. -/
def CGDisplay.is_in_hw_mirror_set (env : NativeEnv) (d : CGDisplay) :
    Bool × List NativeCall :=
  (env.isInHWMirrorSetRet d.id != 0, [NativeCall.displayIsInHWMirrorSet d.id])

/-- `CGDisplay::is_in_mirror_set`. -/
def CGDisplay.is_in_mirror_set (env : NativeEnv) (d : CGDisplay) :
    Bool × List NativeCall :=
  (env.isInMirrorSetRet d.id != 0, [NativeCall.displayIsInMirrorSet d.id])

/-- `CGDisplay::is_main`. -/
def CGDisplay.is_main (env : NativeEnv) (d : CGDisplay) : Bool × List NativeCall :=
  (env.isMainRet d.id != 0, [NativeCall.displayIsMain d.id])

/-- `CGDisplay::is_online`. -/
def CGDisplay.is_online (env : NativeEnv) (d : CGDisplay) : Bool × List NativeCall :=
  (env.isOnlineRet d.id != 0, [NativeCall.displayIsOnline d.id])

/-- `CGDisplay::uses_open_gl_acceleration`. -/
def CGDisplay.uses_open_gl_acceleration (env : NativeEnv) (d : CGDisplay) :
    Bool × List NativeCall :=
  (env.usesOpenGLAccelerationRet d.id != 0, [NativeCall.displayUsesOpenGLAcceleration d.id])

/-- `CGDisplay::is_stereo`. -/
def CGDisplay.is_stereo (env : NativeEnv) (d : CGDisplay) : Bool × List NativeCall :=
  (env.isStereoRet d.id != 0, [NativeCall.displayIsStereo d.id])

/-- `CGDisplay::active_display_count`: one probe call with capacity 0 and a
null buffer; `count as u32` on a `uint32_t` is the identity. -/
def CGDisplay.active_display_count (env : NativeEnv) :
    Except CGError Nat × List NativeCall :=
  let r := env.getActiveDisplayList 0 none
  (if r.1 = 0 then Except.ok r.2.2 else Except.error r.1,
    [NativeCall.getActiveDisplayList 0 none])

/-- `CGDisplay::active_displays`: `try!` the count, allocate `vec![0; count]`,
then call the enumeration function again with that buffer. -/
def CGDisplay.active_displays (env : NativeEnv) :
    Except CGError (List CGDirectDisplayID) × List NativeCall :=
  match CGDisplay.active_display_count env with
  | (Except.error e, t) => (Except.error e, t)
  | (Except.ok count, t) =>
      let buf : List CGDirectDisplayID := List.replicate count 0
      let r := env.getActiveDisplayList count (some buf)
      (if r.1 = 0 then Except.ok (r.2.1.getD buf) else Except.error r.1,
        t ++ [NativeCall.getActiveDisplayList count (some buf.length)])

/-- `CGDisplay::hide_cursor`. -/
def CGDisplay.hide_cursor (env : NativeEnv) (d : CGDisplay) :
    Except CGError Unit × List NativeCall :=
  let result := env.hideCursorRet d.id
  (if result = 0 then Except.ok () else Except.error result,
    [NativeCall.displayHideCursor d.id])

/-- `CGDisplay::show_cursor`. -/
def CGDisplay.show_cursor (env : NativeEnv) (d : CGDisplay) :
    Except CGError Unit × List NativeCall :=
  let result := env.showCursorRet d.id
  (if result = 0 then Except.ok () else Except.error result,
    [NativeCall.displayShowCursor d.id])

/-- `CGDisplay::move_cursor_to_point`. -/
def CGDisplay.move_cursor_to_point (env : NativeEnv) (d : CGDisplay) (point : CGPoint) :
    Except CGError Unit × List NativeCall :=
  let result := env.moveCursorRet d.id point
  (if result = 0 then Except.ok () else Except.error result,
    [NativeCall.displayMoveCursorToPoint d.id point])

/-- `CGDisplay::warp_mouse_cursor_position`. -/
def CGDisplay.warp_mouse_cursor_position (env : NativeEnv) (point : CGPoint) :
    Except CGError Unit × List NativeCall :=
  let result := env.warpRet point
  (if result = 0 then Except.ok () else Except.error result,
    [NativeCall.warpMouseCursorPosition point])

/-- `CGDisplay::associate_mouse_and_mouse_cursor_position`. -/
def CGDisplay.associate_mouse_and_mouse_cursor_position (env : NativeEnv)
    (connected : Bool) : Except CGError Unit × List NativeCall :=
  let result := env.associateRet (boolean_t.ofBool connected)
  (if result = 0 then Except.ok () else Except.error result,
    [NativeCall.associateMouseAndMouseCursorPosition (boolean_t.ofBool connected)])

/-- `CGDisplayMode::width`: `CGDisplayModeGetWidth(..) as u64` (a `size_t`
value reduced modulo `2 ^ 64` by the cast). -/
def CGDisplayMode.width (env : NativeEnv) (m : CGDisplayMode) : Nat × List NativeCall :=
  ((env.modeHeap m.ptr).width % 2 ^ 64, [NativeCall.modeGetWidth m.ptr])

/-- `CGDisplayMode::height`. -/
def CGDisplayMode.height (env : NativeEnv) (m : CGDisplayMode) : Nat × List NativeCall :=
  ((env.modeHeap m.ptr).height % 2 ^ 64, [NativeCall.modeGetHeight m.ptr])

/-- `CGDisplayMode::pixel_width`. -/
def CGDisplayMode.pixel_width (env : NativeEnv) (m : CGDisplayMode) :
    Nat × List NativeCall :=
  ((env.modeHeap m.ptr).pixelWidth % 2 ^ 64, [NativeCall.modeGetPixelWidth m.ptr])

/-- `CGDisplayMode::pixel_height`. -/
def CGDisplayMode.pixel_height (env : NativeEnv) (m : CGDisplayMode) :
    Nat × List NativeCall :=
  ((env.modeHeap m.ptr).pixelHeight % 2 ^ 64, [NativeCall.modeGetPixelHeight m.ptr])

/-- `CGDisplayMode::refresh_rate`: passes the `double` through unchanged. -/
def CGDisplayMode.refresh_rate (env : NativeEnv) (m : CGDisplayMode) :
    CGFloat × List NativeCall :=
  ((env.modeHeap m.ptr).refreshRate, [NativeCall.modeGetRefreshRate m.ptr])

/-- One lifecycle event of display-mode wrappers sharing one native record:
a duplication of some live wrapper (`clone`, which the `foreign_type!` block
routes to `CFRetain`) or a destruction of some live wrapper (`drop`, routed to
`CGDisplayModeRelease`). -/
inductive RCEvent where
  | clone
  | drop
deriving DecidableEq, Repr

/-- State of one native display-mode record together with the wrappers that
reference it: the number of live wrappers, the native reference count, and how
many times the record has been freed. -/
structure RCState where
  alive : Nat
  count : Nat
  freed : Nat
deriving DecidableEq, Repr

/-- Modelled from the spec: `CFRetain` increments the native reference count. -/
def CFRetain (s : RCState) : RCState := { s with count := s.count + 1 }

/-- Modelled from the spec: `CGDisplayModeRelease` decrements the native
reference count and frees the record when the count reaches zero; releasing an
already-freed record (count zero) frees it again, which is the double-release
error the wrapper must never cause. -/
def CGDisplayModeRelease (s : RCState) : RCState :=
  if s.count ≤ 1 then { s with count := 0, freed := s.freed + 1 }
  else { s with count := s.count - 1 }

/-- The wrapper's lifecycle hooks from the `foreign_type!` block:
`clone` runs `CFRetain` and produces one more live wrapper, `drop` runs
`CGDisplayModeRelease` and removes one live wrapper. -/
def wrapperStep (s : RCState) : RCEvent → RCState
  | RCEvent.clone => { CFRetain s with alive := s.alive + 1 }
  | RCEvent.drop => { CGDisplayModeRelease s with alive := s.alive - 1 }

/-- State right after adopting a non-null native pointer that carried one
reference (the create rule): one wrapper, reference count one, not freed. -/
def adopted : RCState := { alive := 1, count := 1, freed := 0 }

/-- Run a sequence of lifecycle events. -/
def runFrom : RCState → List RCEvent → RCState
  | s, [] => s
  | s, e :: es => runFrom (wrapperStep s e) es

/-- An event sequence is well formed for a given number of live wrappers when
every duplication and every destruction acts on an existing live wrapper (the
host language guarantees this: only live values can be cloned or dropped). -/
def okFrom : Nat → List RCEvent → Bool
  | _, [] => true
  | a, RCEvent.clone :: es => decide (1 ≤ a) && okFrom (a + 1) es
  | a, RCEvent.drop :: es => decide (1 ≤ a) && okFrom (a - 1) es

/-- A concrete native environment used to exercise the definitions: three
active displays `[1, 2, 3]`, successful enumeration, a failing hide-cursor
call with code `1000`, successful other cursor calls, non-null pointers from
every pointer-returning call, and a mode record `1920 × 1080`
(`3840 × 2160` pixels) at refresh rate bit pattern `60`. -/
def envW : NativeEnv where
  copyDisplayModeRet := fun _ => 5
  createImageRet := fun _ => 7
  windowListCreateImageRet := fun _ _ _ _ => 9
  windowListCreateImageFromArrayRet := fun _ _ _ => 11
  windowListCopyWindowInfoRet := fun _ _ => 13
  isActiveRet := fun _ => 1
  isAlwaysInMirrorSetRet := fun _ => 0
  isAsleepRet := fun _ => 0
  isBuiltinRet := fun _ => 1
  isInHWMirrorSetRet := fun _ => 0
  isInMirrorSetRet := fun _ => 0
  isMainRet := fun _ => 1
  isOnlineRet := fun _ => 1
  usesOpenGLAccelerationRet := fun _ => 1
  isStereoRet := fun _ => 0
  activeCount := 3
  activeIds := [1, 2, 3]
  probeErr := 0
  fillErr := 0
  hideCursorRet := fun _ => 1000
  showCursorRet := fun _ => 0
  moveCursorRet := fun _ _ => 0
  warpRet := fun _ => 0
  associateRet := fun _ => 0
  modeHeap := fun _ => ⟨1920, 1080, 3840, 2160, ⟨60⟩⟩

/-- A well-formed event sequence over zero live wrappers is empty: no wrapper
is left to clone or to destroy. -/
theorem okFrom_zero (es : List RCEvent) (h : okFrom 0 es = true) : es = [] := by
  cases es with
  | nil => rfl
  | cons e es => cases e <;> simp [okFrom] at h

/-- Invariant of the wrapper lifecycle: along any well-formed event sequence
the native reference count equals the number of live wrappers, and either no
free has happened yet (some wrapper is still alive) or exactly one free has
happened (and no wrapper is alive). -/
theorem runFrom_spec (es : List RCEvent) (s : RCState)
    (hok : okFrom s.alive es = true) (hc : s.count = s.alive)
    (hf : s.freed = 0) (ha : 1 ≤ s.alive) :
    (runFrom s es).count = (runFrom s es).alive ∧
    ((runFrom s es).freed = 0 ∧ 1 ≤ (runFrom s es).alive ∨
      (runFrom s es).freed = 1 ∧ (runFrom s es).alive = 0) := by
  induction es generalizing s with
  | nil => exact ⟨hc, Or.inl ⟨hf, ha⟩⟩
  | cons e es ih =>
    cases e with
    | clone =>
      have hok' : okFrom (s.alive + 1) es = true := by
        simp only [okFrom, Bool.and_eq_true, decide_eq_true_eq] at hok
        exact hok.2
      show (runFrom (wrapperStep s RCEvent.clone) es).count = _ ∧ _
      apply ih
      · simpa [wrapperStep, CFRetain] using hok'
      · simp [wrapperStep, CFRetain, hc]
      · simp [wrapperStep, CFRetain, hf]
      · simp [wrapperStep, CFRetain]
    | drop =>
      have hok' : okFrom (s.alive - 1) es = true := by
        simp only [okFrom, Bool.and_eq_true, decide_eq_true_eq] at hok
        exact hok.2
      by_cases h1 : s.alive = 1
      · have hes : es = [] := okFrom_zero es (by simpa [h1] using hok')
        subst hes
        have hcount : s.count ≤ 1 := by omega
        refine ⟨?_, Or.inr ⟨?_, ?_⟩⟩ <;>
          simp [runFrom, wrapperStep, CGDisplayModeRelease, hcount, hf, h1]
      · have h2 : 2 ≤ s.alive := by
          rcases Nat.lt_or_ge s.alive 2 with h | h
          · omega
          · exact h
        have hgt : ¬ s.count ≤ 1 := by omega
        show (runFrom (wrapperStep s RCEvent.drop) es).count = _ ∧ _
        apply ih
        · simpa [wrapperStep, CGDisplayModeRelease, hgt] using hok'
        · simp [wrapperStep, CGDisplayModeRelease, hgt]
          omega
        · simp [wrapperStep, CGDisplayModeRelease, hgt, hf]
        · simp [wrapperStep, CGDisplayModeRelease, hgt]
          omega

/-- Code translation of the unit-returning operations: success exactly for the
zero code, the error case carries the code itself. -/
theorem code_ok_iff (c : CGError) :
    ((if c = 0 then Except.ok () else Except.error c) = (Except.ok () : Except CGError Unit))
      ↔ c = 0 := by
  by_cases h : c = 0 <;> simp [h]

/-- Code translation of the count-returning operation. -/
theorem code_ok_count_iff (c : CGError) (n : Nat) :
    ((if c = 0 then Except.ok n else Except.error c) = (Except.ok n : Except CGError Nat))
      ↔ c = 0 := by
  by_cases h : c = 0 <;> simp [h]

/-- The null test written on the non-null branch first, restated with the null
case first. -/
theorem null_ite_flip {α : Type} (p : Ptr) (x : α) :
    (if p ≠ 0 then some x else none) = if p = 0 then none else some x := by
  by_cases h : p = 0 <;> simp [h]

/-- Claim C1: starting from a wrapper adopted from a non-null pointer with one
reference, along every well-formed sequence of duplications and destructions
the native reference count always equals the number of live wrappers, the
native record is freed at most once, it is freed exactly once precisely when
the last wrapper has been destroyed, and each duplication increments the count
by one while each destruction of a counted reference decrements it by one. -/
theorem claim1_refcount_lifecycle (es : List RCEvent) (s : RCState)
    (hok : okFrom 1 es = true) (hs : 1 ≤ s.count) :
    (runFrom adopted es).count = (runFrom adopted es).alive ∧
    (runFrom adopted es).freed ≤ 1 ∧
    ((runFrom adopted es).freed = 1 ↔ (runFrom adopted es).alive = 0) ∧
    (wrapperStep s RCEvent.clone).count = s.count + 1 ∧
    (wrapperStep s RCEvent.drop).count = s.count - 1 := by
  have h := runFrom_spec es adopted (by simpa [adopted] using hok) (by simp [adopted])
    (by simp [adopted]) (by simp [adopted])
  refine ⟨h.1, ?_, ?_, ?_, ?_⟩
  · rcases h.2 with ⟨h0, _⟩ | ⟨h1, _⟩ <;> omega
  · rcases h.2 with ⟨h0, ha⟩ | ⟨h1, ha⟩
    · constructor
      · intro hx; omega
      · intro hx; omega
    · simp [h1, ha]
  · simp [wrapperStep, CFRetain]
  · by_cases hcl : s.count ≤ 1
    · have hone : s.count = 1 := by omega
      simp [wrapperStep, CGDisplayModeRelease, hcl, hone]
    · simp [wrapperStep, CGDisplayModeRelease, hcl]

/-- Witness for C1 at the trace clone, drop, drop and at the state with two
wrappers and count two. -/
theorem claim1_refcount_lifecycle_witness :
    okFrom 1 [RCEvent.clone, RCEvent.drop, RCEvent.drop] = true ∧
    1 ≤ (2 : Nat) ∧
    ((runFrom adopted [RCEvent.clone, RCEvent.drop, RCEvent.drop]).count =
        (runFrom adopted [RCEvent.clone, RCEvent.drop, RCEvent.drop]).alive ∧
      (runFrom adopted [RCEvent.clone, RCEvent.drop, RCEvent.drop]).freed ≤ 1 ∧
      ((runFrom adopted [RCEvent.clone, RCEvent.drop, RCEvent.drop]).freed = 1 ↔
        (runFrom adopted [RCEvent.clone, RCEvent.drop, RCEvent.drop]).alive = 0) ∧
      (wrapperStep ⟨2, 2, 0⟩ RCEvent.clone).count = 2 + 1 ∧
      (wrapperStep ⟨2, 2, 0⟩ RCEvent.drop).count = 2 - 1) :=
  ⟨by decide, by decide,
    claim1_refcount_lifecycle [RCEvent.clone, RCEvent.drop, RCEvent.drop] ⟨2, 2, 0⟩
      (by decide) (by decide)⟩

/-- Claim C2: every code-returning operation succeeds exactly when the native
code is zero, and a non-zero code is carried as the failure value unmodified
(the result is the error holding exactly that code). -/
theorem claim2_code_translation (env : NativeEnv) (d : CGDisplay) (p : CGPoint) (b : Bool) :
    ((CGDisplay.hide_cursor env d).1 =
        if env.hideCursorRet d.id = 0 then Except.ok ()
        else Except.error (env.hideCursorRet d.id)) ∧
    ((CGDisplay.hide_cursor env d).1 = Except.ok () ↔ env.hideCursorRet d.id = 0) ∧
    ((CGDisplay.show_cursor env d).1 =
        if env.showCursorRet d.id = 0 then Except.ok ()
        else Except.error (env.showCursorRet d.id)) ∧
    ((CGDisplay.show_cursor env d).1 = Except.ok () ↔ env.showCursorRet d.id = 0) ∧
    ((CGDisplay.move_cursor_to_point env d p).1 =
        if env.moveCursorRet d.id p = 0 then Except.ok ()
        else Except.error (env.moveCursorRet d.id p)) ∧
    ((CGDisplay.move_cursor_to_point env d p).1 = Except.ok () ↔ env.moveCursorRet d.id p = 0) ∧
    ((CGDisplay.warp_mouse_cursor_position env p).1 =
        if env.warpRet p = 0 then Except.ok () else Except.error (env.warpRet p)) ∧
    ((CGDisplay.warp_mouse_cursor_position env p).1 = Except.ok () ↔ env.warpRet p = 0) ∧
    ((CGDisplay.associate_mouse_and_mouse_cursor_position env b).1 =
        if env.associateRet (boolean_t.ofBool b) = 0 then Except.ok ()
        else Except.error (env.associateRet (boolean_t.ofBool b))) ∧
    ((CGDisplay.associate_mouse_and_mouse_cursor_position env b).1 = Except.ok ()
        ↔ env.associateRet (boolean_t.ofBool b) = 0) ∧
    ((CGDisplay.active_display_count env).1 =
        if env.probeErr = 0 then Except.ok env.activeCount else Except.error env.probeErr) ∧
    ((CGDisplay.active_display_count env).1 = Except.ok env.activeCount ↔ env.probeErr = 0) :=
  ⟨rfl, code_ok_iff _, rfl, code_ok_iff _, rfl, code_ok_iff _, rfl, code_ok_iff _,
    rfl, code_ok_iff _, rfl, code_ok_count_iff _ _⟩

/-- Claim C3: every optional-returning operation yields the absent result when
the native pointer is null and otherwise the present result wrapping exactly
the returned pointer; the result type has no failure alternative. -/
theorem claim3_null_to_none (env : NativeEnv) (d₁ d₂ : CGDisplay) (bounds₁ bounds₂ : CGRect)
    (listOption : CGWindowListOption) (windowId : CGWindowID)
    (imageOption₁ imageOption₂ : CGWindowImageOption) (windows : CFArray)
    (infoOption : CGWindowListOption) (rtw : Option CGWindowID) :
    ((CGDisplay.display_mode env d₁).1 =
      if env.copyDisplayModeRet d₁.id = 0 then none
      else some (CGDisplayMode.from_ptr (env.copyDisplayModeRet d₁.id))) ∧
    ((CGDisplay.image env d₂).1 =
      if env.createImageRet d₂.id = 0 then none
      else some (CGImage.from_ptr (env.createImageRet d₂.id))) ∧
    ((CGDisplay.screenshot env bounds₁ listOption windowId imageOption₁).1 =
      if env.windowListCreateImageRet bounds₁ listOption windowId imageOption₁ = 0 then none
      else some (CGImage.from_ptr
        (env.windowListCreateImageRet bounds₁ listOption windowId imageOption₁))) ∧
    ((CGDisplay.screenshot_from_windows env bounds₂ windows imageOption₂).1 =
      if env.windowListCreateImageFromArrayRet bounds₂ windows.as_concrete_TypeRef imageOption₂
          = 0 then none
      else some (CGImage.from_ptr
        (env.windowListCreateImageFromArrayRet bounds₂ windows.as_concrete_TypeRef
          imageOption₂))) ∧
    ((CGDisplay.window_list_info env infoOption rtw).1 =
      if env.windowListCopyWindowInfoRet infoOption (rtw.getD kCGNullWindowID) = 0 then none
      else some (CFArray.wrap_under_create_rule
        (env.windowListCopyWindowInfoRet infoOption (rtw.getD kCGNullWindowID)))) :=
  ⟨null_ite_flip _ _, null_ite_flip _ _, null_ite_flip _ _, null_ite_flip _ _,
    null_ite_flip _ _⟩

/-- Claim C4: the enumeration protocol is two-phase: a probe with capacity zero
and a null buffer, then one fill with a buffer of exactly the reported count;
on success the returned identifier list has exactly the length the count probe
reported. -/
theorem claim4_two_phase (env : NativeEnv) (l : List CGDirectDisplayID) (c : Nat)
    (h₁ : (CGDisplay.active_displays env).1 = Except.ok l)
    (h₂ : (CGDisplay.active_display_count env).1 = Except.ok c) :
    l.length = c ∧
    (CGDisplay.active_displays env).2 =
      [NativeCall.getActiveDisplayList 0 none, NativeCall.getActiveDisplayList c (some c)] := by
  by_cases hp : env.probeErr = 0
  · have hc : c = env.activeCount := by
      simp [CGDisplay.active_display_count, NativeEnv.getActiveDisplayList, hp] at h₂
      omega
    subst hc
    by_cases hf : env.fillErr = 0
    · simp [CGDisplay.active_displays, CGDisplay.active_display_count,
        NativeEnv.getActiveDisplayList, hp, hf] at h₁ ⊢
      subst h₁
      rw [List.length_append, List.length_take, List.length_replicate, inf_assoc, inf_idem]
      exact Nat.add_sub_cancel' inf_le_left
    · exfalso
      simp [CGDisplay.active_displays, CGDisplay.active_display_count,
        NativeEnv.getActiveDisplayList, hp, hf] at h₁
  · exfalso
    simp [CGDisplay.active_display_count, NativeEnv.getActiveDisplayList, hp] at h₂

/-- Witness for C4 at the environment with three active displays. -/
theorem claim4_two_phase_witness :
    (CGDisplay.active_displays envW).1 = Except.ok [1, 2, 3] ∧
    (CGDisplay.active_display_count envW).1 = Except.ok 3 ∧
    (([1, 2, 3] : List CGDirectDisplayID).length = 3 ∧
      (CGDisplay.active_displays envW).2 =
        [NativeCall.getActiveDisplayList 0 none, NativeCall.getActiveDisplayList 3 (some 3)]) :=
  ⟨by rfl, by rfl, claim4_two_phase envW [1, 2, 3] 3 (by rfl) (by rfl)⟩

/-- Claim C5: no operation of the binding ever produces a wrapper holding the
null pointer: the null check precedes every adoption. -/
theorem claim5_no_null_wrapper (env : NativeEnv) (d₁ d₂ : CGDisplay) (bounds₁ bounds₂ : CGRect)
    (listOption : CGWindowListOption) (windowId : CGWindowID)
    (imageOption₁ imageOption₂ : CGWindowImageOption) (windows : CFArray)
    (infoOption : CGWindowListOption) (rtw : Option CGWindowID) :
    (CGDisplay.display_mode env d₁).1 ≠ some (CGDisplayMode.from_ptr 0) ∧
    (CGDisplay.image env d₂).1 ≠ some (CGImage.from_ptr 0) ∧
    (CGDisplay.screenshot env bounds₁ listOption windowId imageOption₁).1
      ≠ some (CGImage.from_ptr 0) ∧
    (CGDisplay.screenshot_from_windows env bounds₂ windows imageOption₂).1
      ≠ some (CGImage.from_ptr 0) ∧
    (CGDisplay.window_list_info env infoOption rtw).1
      ≠ some (CFArray.wrap_under_create_rule 0) := by
  refine ⟨?_, ?_, ?_, ?_, ?_⟩ <;>
    simp only [CGDisplay.display_mode, CGDisplay.image, CGDisplay.screenshot,
      CGDisplay.screenshot_from_windows, CGDisplay.window_list_info,
      CGDisplayMode.from_ptr, CGImage.from_ptr, CFArray.wrap_under_create_rule] <;>
    split <;> simp_all

/-- Claim C6: each display-mode field accessor returns exactly the value
stored in the native record (the cast to a 64-bit value is the identity on
values below two to the sixty-fourth), and the refresh rate passes through
unchanged. -/
theorem claim6_mode_accessors (env : NativeEnv) (m : CGDisplayMode)
    (hw : (env.modeHeap m.ptr).width < 2 ^ 64)
    (hh : (env.modeHeap m.ptr).height < 2 ^ 64)
    (hpw : (env.modeHeap m.ptr).pixelWidth < 2 ^ 64)
    (hph : (env.modeHeap m.ptr).pixelHeight < 2 ^ 64) :
    (CGDisplayMode.width env m).1 = (env.modeHeap m.ptr).width ∧
    (CGDisplayMode.height env m).1 = (env.modeHeap m.ptr).height ∧
    (CGDisplayMode.pixel_width env m).1 = (env.modeHeap m.ptr).pixelWidth ∧
    (CGDisplayMode.pixel_height env m).1 = (env.modeHeap m.ptr).pixelHeight ∧
    (CGDisplayMode.refresh_rate env m).1 = (env.modeHeap m.ptr).refreshRate :=
  ⟨Nat.mod_eq_of_lt hw, Nat.mod_eq_of_lt hh, Nat.mod_eq_of_lt hpw, Nat.mod_eq_of_lt hph, rfl⟩

/-- Witness for C6 at the environment whose mode record is 1920 by 1080 with
3840 by 2160 pixels and refresh-rate bit pattern 60. -/
theorem claim6_mode_accessors_witness :
    (envW.modeHeap 5).width < 2 ^ 64 ∧
    ((CGDisplayMode.width envW ⟨5⟩).1 = 1920 ∧
      (CGDisplayMode.height envW ⟨5⟩).1 = 1080 ∧
      (CGDisplayMode.pixel_width envW ⟨5⟩).1 = 3840 ∧
      (CGDisplayMode.pixel_height envW ⟨5⟩).1 = 2160 ∧
      (CGDisplayMode.refresh_rate envW ⟨5⟩).1 = ⟨60⟩) :=
  ⟨by decide,
    claim6_mode_accessors envW ⟨5⟩ (by decide) (by decide) (by decide) (by decide)⟩

/-- Claim C7: every boolean display query returns true exactly when the native
query returns a non-zero value; the result type has no failure alternative. -/
theorem claim7_bool_queries (env : NativeEnv) (d : CGDisplay) :
    ((CGDisplay.is_active env d).1 = true ↔ env.isActiveRet d.id ≠ 0) ∧
    ((CGDisplay.is_always_in_mirror_set env d).1 = true ↔ env.isAlwaysInMirrorSetRet d.id ≠ 0) ∧
    ((CGDisplay.is_asleep env d).1 = true ↔ env.isAsleepRet d.id ≠ 0) ∧
    ((CGDisplay.is_builtin env d).1 = true ↔ env.isBuiltinRet d.id ≠ 0) ∧
    ((CGDisplay.is_in_hw_mirror_set env d).1 = true ↔ env.isInHWMirrorSetRet d.id ≠ 0) ∧
    ((CGDisplay.is_in_mirror_set env d).1 = true ↔ env.isInMirrorSetRet d.id ≠ 0) ∧
    ((CGDisplay.is_main env d).1 = true ↔ env.isMainRet d.id ≠ 0) ∧
    ((CGDisplay.is_online env d).1 = true ↔ env.isOnlineRet d.id ≠ 0) ∧
    ((CGDisplay.uses_open_gl_acceleration env d).1 = true
        ↔ env.usesOpenGLAccelerationRet d.id ≠ 0) ∧
    ((CGDisplay.is_stereo env d).1 = true ↔ env.isStereoRet d.id ≠ 0) :=
  ⟨bne_iff_ne, bne_iff_ne, bne_iff_ne, bne_iff_ne, bne_iff_ne, bne_iff_ne, bne_iff_ne,
    bne_iff_ne, bne_iff_ne, bne_iff_ne⟩

/-- Claim C8 fails as stated: at the concrete environment with a successful
probe, the public operation active_displays performs two native calls, not
one. -/
theorem claim8_counterexample :
    (CGDisplay.active_displays envW).2 =
      [NativeCall.getActiveDisplayList 0 none, NativeCall.getActiveDisplayList 3 (some 3)] ∧
    (CGDisplay.active_displays envW).2.length ≠ 1 :=
  ⟨rfl, by decide⟩

/-- Claim C8 amended: every modeled public operation other than
active_displays performs exactly the single native call shown; active_displays
performs the probe call followed by one fill call when the probe succeeds and
only the probe call when it fails, and never repeats a call. -/
theorem claim8_single_call_amended (env : NativeEnv) (d : CGDisplay) (p : CGPoint) (b : Bool)
    (bounds₁ bounds₂ : CGRect) (listOption : CGWindowListOption) (windowId : CGWindowID)
    (imageOption₁ imageOption₂ : CGWindowImageOption) (windows : CFArray)
    (infoOption : CGWindowListOption) (rtw : Option CGWindowID) (m : CGDisplayMode) :
    (CGDisplay.display_mode env d).2 = [NativeCall.copyDisplayMode d.id] ∧
    (CGDisplay.image env d).2 = [NativeCall.createImage d.id] ∧
    (CGDisplay.screenshot env bounds₁ listOption windowId imageOption₁).2 =
      [NativeCall.windowListCreateImage bounds₁ listOption windowId imageOption₁] ∧
    (CGDisplay.screenshot_from_windows env bounds₂ windows imageOption₂).2 =
      [NativeCall.windowListCreateImageFromArray bounds₂ windows.as_concrete_TypeRef
        imageOption₂] ∧
    (CGDisplay.window_list_info env infoOption rtw).2 =
      [NativeCall.windowListCopyWindowInfo infoOption (rtw.getD kCGNullWindowID)] ∧
    (CGDisplay.is_active env d).2 = [NativeCall.displayIsActive d.id] ∧
    (CGDisplay.is_always_in_mirror_set env d).2 =
      [NativeCall.displayIsAlwaysInMirrorSet d.id] ∧
    (CGDisplay.is_asleep env d).2 = [NativeCall.displayIsAsleep d.id] ∧
    (CGDisplay.is_builtin env d).2 = [NativeCall.displayIsBuiltin d.id] ∧
    (CGDisplay.is_in_hw_mirror_set env d).2 = [NativeCall.displayIsInHWMirrorSet d.id] ∧
    (CGDisplay.is_in_mirror_set env d).2 = [NativeCall.displayIsInMirrorSet d.id] ∧
    (CGDisplay.is_main env d).2 = [NativeCall.displayIsMain d.id] ∧
    (CGDisplay.is_online env d).2 = [NativeCall.displayIsOnline d.id] ∧
    (CGDisplay.uses_open_gl_acceleration env d).2 =
      [NativeCall.displayUsesOpenGLAcceleration d.id] ∧
    (CGDisplay.is_stereo env d).2 = [NativeCall.displayIsStereo d.id] ∧
    (CGDisplay.active_display_count env).2 = [NativeCall.getActiveDisplayList 0 none] ∧
    (CGDisplay.hide_cursor env d).2 = [NativeCall.displayHideCursor d.id] ∧
    (CGDisplay.show_cursor env d).2 = [NativeCall.displayShowCursor d.id] ∧
    (CGDisplay.move_cursor_to_point env d p).2 =
      [NativeCall.displayMoveCursorToPoint d.id p] ∧
    (CGDisplay.warp_mouse_cursor_position env p).2 = [NativeCall.warpMouseCursorPosition p] ∧
    (CGDisplay.associate_mouse_and_mouse_cursor_position env b).2 =
      [NativeCall.associateMouseAndMouseCursorPosition (boolean_t.ofBool b)] ∧
    (CGDisplayMode.width env m).2 = [NativeCall.modeGetWidth m.ptr] ∧
    (CGDisplayMode.height env m).2 = [NativeCall.modeGetHeight m.ptr] ∧
    (CGDisplayMode.pixel_width env m).2 = [NativeCall.modeGetPixelWidth m.ptr] ∧
    (CGDisplayMode.pixel_height env m).2 = [NativeCall.modeGetPixelHeight m.ptr] ∧
    (CGDisplayMode.refresh_rate env m).2 = [NativeCall.modeGetRefreshRate m.ptr] ∧
    ((CGDisplay.active_displays env).2 =
      if env.probeErr = 0 then
        [NativeCall.getActiveDisplayList 0 none,
          NativeCall.getActiveDisplayList env.activeCount (some env.activeCount)]
      else [NativeCall.getActiveDisplayList 0 none]) ∧
    (CGDisplay.active_displays env).2.Nodup := by
  refine ⟨rfl, rfl, rfl, rfl, rfl, rfl, rfl, rfl, rfl, rfl, rfl, rfl, rfl, rfl, rfl, rfl,
    rfl, rfl, rfl, rfl, rfl, rfl, rfl, rfl, rfl, rfl, ?_, ?_⟩
  · by_cases hp : env.probeErr = 0 <;>
      simp [CGDisplay.active_displays, CGDisplay.active_display_count,
        NativeEnv.getActiveDisplayList, hp]
  · by_cases hp : env.probeErr = 0 <;>
      simp [CGDisplay.active_displays, CGDisplay.active_display_count,
        NativeEnv.getActiveDisplayList, hp]

/-- Claim C9: a display value is a plain value: it is exactly its identifier,
two display values are equal precisely when their identifiers are equal, and
the comparison is decidable (the two decision procedures agree). -/
theorem claim9_display_plain_value (d₁ d₂ : CGDisplay) :
    (d₁ = d₂ ↔ d₁.id = d₂.id) ∧
    CGDisplay.new d₁.id = d₁ ∧
    decide (d₁ = d₂) = decide (d₁.id = d₂.id) := by
  obtain ⟨i₁⟩ := d₁
  obtain ⟨i₂⟩ := d₂
  refine ⟨?_, rfl, ?_⟩
  · simp
  · rw [decide_eq_decide]
    simp

/-- Claim C10: calling window_list_info with an absent relative window is the
same call as with the null window identifier: same result and the same single
native call with relativeToWindow zero. -/
theorem claim10_none_is_null_window (env : NativeEnv) (infoOption : CGWindowListOption) :
    CGDisplay.window_list_info env infoOption none =
      CGDisplay.window_list_info env infoOption (some kCGNullWindowID) ∧
    (CGDisplay.window_list_info env infoOption none).2 =
      [NativeCall.windowListCopyWindowInfo infoOption 0] :=
  ⟨rfl, rfl⟩

end CoreGraphics
